import Mathlib

set_option autoImplicit false

namespace LogoGen

/-! Shallow embedding of `logo_gen_outline.py`. Python strings are Lean
`String`s; the JSON objects the claims depend on are records whose `Option`
fields record the presence or absence of a key; network requests and
external image-tool invocations are oracles whose outcomes are collected in
a `StepEnv`. Definitions mirror the source functions `get_team_info`,
`generate_image`, `fetch_schedule` and `process_league`. -/

/-- Python truthiness of a string: non-empty. -/
def pyTruthyStr (s : String) : Bool := !s.data.isEmpty

/-- Python truthiness of an optional string: `None` and the empty string are falsy. -/
def pyTruthyOpt : Option String → Bool
  | none => false
  | some s => pyTruthyStr s

/-- One entry of a team's `logos` list, restricted to the keys read by
`get_team_info`: the `rel` tag list and the `href` URL, each possibly absent. -/
structure LogoEntry where
  rel : Option (List String)
  href : Option String
deriving Repr, DecidableEq

/-- A team JSON object restricted to the keys `get_team_info` reads; a field
is `none` when the key is absent from the object. -/
structure TeamData where
  abbreviation : Option String
  color : Option String
  altColor : Option String
  logos : Option (List LogoEntry)
  logo : Option String
deriving Repr, DecidableEq

/-- The dictionary `get_team_info` returns (lines 58-63); `abbr` models its
`abbrev` key (renamed only because that word is reserved here). -/
structure TeamInfo where
  abbr : String
  color : String
  alt_color : String
  logo_url : Option String
deriving Repr, DecidableEq

/-- Python `s.lstrip('#')`: drop every leading `'#'` character. -/
def lstripHash (s : String) : String := String.mk (s.data.dropWhile (fun c => c = '#'))

/-- Python `'default' in logo.get('rel', [])` (line 51). -/
def isDefaultEntry (e : LogoEntry) : Bool := (e.rel.getD []).contains "default"

/-- Embeds lines 47-53: the `href` taken from a truthy `logos` list, chosen
from the first entry whose `rel` tags contain `"default"` when one exists,
else from the first entry; `none` when the list is absent or empty. The
entry found by the search necessarily has `"default"` among its `rel` tags,
hence is a non-empty (truthy) dictionary, so the Python
`default_logo if default_logo else logos[0]` is exactly `Option.getD`. -/
def logoFromList : Option (List LogoEntry) → Option String
  | none => none
  | some [] => none
  | some (e :: es) => (((e :: es).find? isDefaultEntry).getD e).href

/-- Embeds `get_team_info` (lines 41-63): abbreviation defaults to `"TBD"`,
colors are re-prefixed with `"#"` after stripping leading hashes (defaults
`CCCCCC` and `000000`), and the logo URL comes from the `logos` list,
falling back to the flat `logo` field when that yields a falsy value. -/
def get_team_info (t : TeamData) : TeamInfo :=
  let abbr := t.abbreviation.getD "TBD"
  let color := "#" ++ lstripHash (t.color.getD "CCCCCC")
  let alt_color := "#" ++ lstripHash (t.altColor.getD "000000")
  let fromLogos := logoFromList t.logos
  let logo_url := if pyTruthyOpt fromLogos then fromLogos else t.logo
  ⟨abbr, color, alt_color, logo_url⟩

/-- Numeric value of a decimal digit character (code points 48 to 57),
`none` for any other character. -/
def digit? (c : Char) : Option Nat :=
  if '0' ≤ c ∧ c ≤ '9' then some (c.toNat - 48) else none

/-- Reads one more digit, for the two-digit branches of the strptime field
patterns; `none` when the input is empty or starts with a non-digit. -/
def digit2? : List Char → Option (Nat × List Char)
  | [] => none
  | c :: rest =>
    match digit? c with
    | some v => some (v, rest)
    | none => none

/-- CPython strptime field `%Y`: exactly four digits. -/
def parseY : List Char → Option (Nat × List Char)
  | c1 :: c2 :: c3 :: c4 :: rest =>
    match digit? c1, digit? c2, digit? c3, digit? c4 with
    | some v1, some v2, some v3, some v4 =>
      some (v1 * 1000 + v2 * 100 + v3 * 10 + v4, rest)
    | _, _, _, _ => none
  | _ => none

/-- CPython strptime field `%m`, the regex alternatives `1[0-2]`, `0[1-9]`,
`[1-9]` tried in order (a longer match is kept even if a later literal then
fails, exactly as the compiled regex behaves on this format). -/
def parseMonth : List Char → Option (Nat × List Char)
  | [] => none
  | c :: rest =>
    match digit? c with
    | none => none
    | some v =>
      if v = 1 then
        match digit2? rest with
        | some (v2, rest2) => if v2 ≤ 2 then some (10 + v2, rest2) else some (1, rest)
        | none => some (1, rest)
      else if v = 0 then
        match digit2? rest with
        | some (v2, rest2) => if 1 ≤ v2 then some (v2, rest2) else none
        | none => none
      else some (v, rest)

/-- CPython strptime field `%d`: `3[01]`, `[12]` followed by a digit, `0[1-9]`, `[1-9]`. -/
def parseDay : List Char → Option (Nat × List Char)
  | [] => none
  | c :: rest =>
    match digit? c with
    | none => none
    | some v =>
      if v = 3 then
        match digit2? rest with
        | some (v2, rest2) => if v2 ≤ 1 then some (30 + v2, rest2) else some (3, rest)
        | none => some (3, rest)
      else if v = 1 ∨ v = 2 then
        match digit2? rest with
        | some (v2, rest2) => some (10 * v + v2, rest2)
        | none => some (v, rest)
      else if v = 0 then
        match digit2? rest with
        | some (v2, rest2) => if 1 ≤ v2 then some (v2, rest2) else none
        | none => none
      else some (v, rest)

/-- CPython strptime field `%H`: `2[0-3]`, `[0-1]` followed by a digit, or one digit. -/
def parseHour : List Char → Option (Nat × List Char)
  | [] => none
  | c :: rest =>
    match digit? c with
    | none => none
    | some v =>
      if v = 2 then
        match digit2? rest with
        | some (v2, rest2) => if v2 ≤ 3 then some (20 + v2, rest2) else some (2, rest)
        | none => some (2, rest)
      else if v ≤ 1 then
        match digit2? rest with
        | some (v2, rest2) => some (10 * v + v2, rest2)
        | none => some (v, rest)
      else some (v, rest)

/-- CPython strptime field `%M`: `[0-5]` followed by a digit, or one digit. -/
def parseMinute : List Char → Option (Nat × List Char)
  | [] => none
  | c :: rest =>
    match digit? c with
    | none => none
    | some v =>
      if v ≤ 5 then
        match digit2? rest with
        | some (v2, rest2) => some (10 * v + v2, rest2)
        | none => some (v, rest)
      else some (v, rest)

/-- A literal character of the format string; CPython compiles the strptime
regex with IGNORECASE, so letters match either case. -/
def parseLit (ch : Char) : List Char → Option (List Char)
  | [] => none
  | c :: rest => if c.toLower = ch.toLower then some rest else none

/-- The five fields `strptime(s, '%Y-%m-%dT%H:%MZ')` extracts. -/
structure ParsedDT where
  year : Nat
  month : Nat
  day : Nat
  hour : Nat
  minute : Nat
deriving Repr, DecidableEq

/-- Gregorian leap-year rule, as used by `datetime`. -/
def isLeapYear (y : Nat) : Bool := (y % 4 = 0 && y % 100 ≠ 0) || y % 400 = 0

/-- Length of a month, as validated by the `datetime` constructor. -/
def daysInMonth (y m : Nat) : Nat :=
  if m = 2 then (if isLeapYear y then 29 else 28)
  else if m = 4 ∨ m = 6 ∨ m = 9 ∨ m = 11 then 30
  else 31

/-- Embeds `datetime.datetime.strptime(s, '%Y-%m-%dT%H:%MZ')` (line 219):
the five field patterns and three literals in sequence, a full-string match,
then the `datetime` constructor's checks that the year is at least 1 and the
day fits the month. -/
def strptimeYmdHMZ (s : String) : Option ParsedDT := do
  let (y, r1) ← parseY s.data
  let r2 ← parseLit '-' r1
  let (mo, r3) ← parseMonth r2
  let r4 ← parseLit '-' r3
  let (d, r5) ← parseDay r4
  let r6 ← parseLit 'T' r5
  let (h, r7) ← parseHour r6
  let r8 ← parseLit ':' r7
  let (mi, r9) ← parseMinute r8
  let r10 ← parseLit 'Z' r9
  match r10 with
  | [] => if 1 ≤ y ∧ d ≤ daysInMonth y mo then some ⟨y, mo, d, h, mi⟩ else none
  | _ => none

/-- Decimal digits of a natural number, as characters (CPython `str` on an int). -/
def natChars (n : Nat) : List Char := Nat.toDigits 10 n

/-- A two-digit zero-padded strftime field such as `%I` or `%M`. -/
def pad2 (n : Nat) : List Char := if n < 10 then '0' :: natChars n else natChars n

/-- Python `s[1:] if s.startswith('0') else s`, at the character level (lines 222-223). -/
def stripLeadZero : List Char → List Char
  | '0' :: rest => rest
  | l => l

/-- Embeds the successful path of the time-formatting block of
`generate_image` (lines 219-223): shift the wall-clock time back six hours
(modulo one day), render `%I:%M %p CT`, then strip one leading zero. -/
def format_game_time (h m : Nat) : String :=
  let total := (h * 60 + m + 1080) % 1440
  let lh := total / 60
  let lm := total % 60
  let h12 := if lh % 12 = 0 then 12 else lh % 12
  let ampm := if lh < 12 then "AM" else "PM"
  String.mk (stripLeadZero (pad2 h12 ++ ':' :: pad2 lm ++ ' ' :: ampm.data ++ " CT".data))

/-- Embeds the whole `try`/`except` time block (lines 218-226): a `None`
date raises `TypeError` inside `strptime`; an unparseable string raises
`ValueError`; subtracting six hours from a datetime within six hours of
`datetime.min` (year 1, January 1, before 06:00) raises `OverflowError`.
All three are caught by `except Exception` and degrade to `"TIME TBD"`. -/
def compute_time_label (raw : Option String) : String :=
  match raw with
  | none => "TIME TBD"
  | some s =>
    match strptimeYmdHMZ s with
    | none => "TIME TBD"
    | some dt =>
      if dt.year = 1 ∧ dt.month = 1 ∧ dt.day = 1 ∧ dt.hour * 60 + dt.minute < 360 then
        "TIME TBD"
      else format_game_time dt.hour dt.minute

/-- Modelled from the spec's wording of the time format: subtract a fixed
six-hour offset from the UTC time (integer arithmetic modulo one day, so a
signed subtraction), format as a 12-hour clock with `AM`/`PM` and a `CT`
suffix, the hour shown without a leading zero. Used only to compare against
`format_game_time`. -/
def spec_time_label (h m : Nat) : String :=
  let total : Nat := (((h : Int) * 60 + (m : Int) - 360) % 1440).toNat
  let lh := total / 60
  let lm := total % 60
  let h12 := if lh = 0 then 12 else if lh ≤ 12 then lh else lh - 12
  let ampm := if lh < 12 then "AM" else "PM"
  String.mk (natChars h12 ++ ':' :: pad2 lm ++ ' ' :: ampm.data ++ " CT".data)

/-- Outcomes of the external effects `generate_image` performs, in program
order: two logo downloads, two resizes, two background removals, two glow
compositions, and the final composite command. -/
structure StepEnv where
  dl_away_ok : Bool
  dl_home_ok : Bool
  resize_away_ok : Bool
  resize_home_ok : Bool
  clean_away_ok : Bool
  clean_home_ok : Bool
  glow_away_ok : Bool
  glow_home_ok : Bool
  final_ok : Bool
deriving Repr, DecidableEq

/-- The eight per-game temporary files `generate_image` names (lines 103-116). -/
inductive TempFile where
  | dlAway
  | dlHome
  | resizedAway
  | resizedHome
  | cleanedAway
  | cleanedHome
  | finalAway
  | finalHome
deriving Repr, DecidableEq

/-- What a call to `generate_image` did: its boolean return value, the
temporary files still on disk when it returns, how many downloads and how
many image-tool invocations it attempted, whether the final PNG was written,
and the time label it used (`none` when the final composite was never reached). -/
structure GenOutcome where
  ok : Bool
  tempLeft : List TempFile
  downloads : Nat
  toolCalls : Nat
  outputWritten : Bool
  timeLabel : Option String
deriving Repr, DecidableEq

/-- Embeds `generate_image` (lines 92-280). Both logo URLs are tested for
truthiness before any download (lines 122-128). A failed download or failed
external command creates no file; a successful step creates its output
file. The `finally` cleanup of all eight temporary files (lines 270-280) is
attached only to the final composite `try`, so every earlier `return False`
exit keeps the files created up to that point. -/
def generate_image (env : StepEnv) (away home : TeamInfo) (raw : Option String) : GenOutcome :=
  if !(pyTruthyOpt away.logo_url && pyTruthyOpt home.logo_url) then
    ⟨false, [], 0, 0, false, none⟩
  else if !env.dl_away_ok then
    ⟨false, [], 1, 0, false, none⟩
  else if !env.dl_home_ok then
    ⟨false, [.dlAway], 2, 0, false, none⟩
  else if !env.resize_away_ok then
    ⟨false, [.dlAway, .dlHome], 2, 1, false, none⟩
  else if !env.resize_home_ok then
    ⟨false, [.dlAway, .dlHome, .resizedAway], 2, 2, false, none⟩
  else if !env.clean_away_ok then
    ⟨false, [.dlAway, .dlHome, .resizedAway, .resizedHome], 2, 3, false, none⟩
  else if !env.clean_home_ok then
    ⟨false, [.dlAway, .dlHome, .resizedAway, .resizedHome, .cleanedAway], 2, 4, false, none⟩
  else if !env.glow_away_ok then
    ⟨false, [.dlAway, .dlHome, .resizedAway, .resizedHome, .cleanedAway, .cleanedHome], 2, 5, false,
      none⟩
  else if !env.glow_home_ok then
    ⟨false,
      [.dlAway, .dlHome, .resizedAway, .resizedHome, .cleanedAway, .cleanedHome, .finalAway], 2, 6,
      false, none⟩
  else
    ⟨env.final_ok, [], 2, 7, env.final_ok, some (compute_time_label raw)⟩

/-- A `competitors` entry: whether it carries the `homeAway` and `team` keys
(absent keys raise `KeyError` under the subscript accesses of lines 327-328). -/
structure Competitor where
  homeAway : Option String
  team : Option TeamData
deriving Repr, DecidableEq

/-- A `competitions` entry: whether it carries the `competitors` key. -/
structure Competition where
  competitors : Option (List Competitor)
deriving Repr, DecidableEq

/-- A schedule event: its `date` string and its `competitions` list, each
possibly absent. -/
structure Event where
  date : Option String
  competitions : Option (List Competition)
deriving Repr, DecidableEq

/-- The decoded scoreboard body, restricted to the `events` key; `none`
means the key is absent (this also covers a falsy empty object, which can
hold no key). -/
structure ScheduleData where
  events : Option (List Event)
deriving Repr, DecidableEq

/-- Python exceptions that can escape the event loop uncaught. -/
inductive PyError where
  | keyError (key : String)
deriving Repr, DecidableEq

/-- How one event-loop iteration ends. -/
inductive EventOutcome where
  | skipped
  | attempted (produced : Bool)
  | crashed (e : PyError)
deriving Repr, DecidableEq

/-- Embeds the generator expression
`next((c['team'] for c in competitors if c['homeAway'] == tag), None)`
(lines 327-328): scan left to right, raise `KeyError` on a competitor with
no `homeAway` key (or no `team` key on the first tag match), stop at the
first match, and yield `None` when no competitor matches. -/
def findTagged (tag : String) : List Competitor → Except PyError (Option TeamData)
  | [] => .ok none
  | c :: rest =>
    match c.homeAway with
    | none => .error (.keyError "homeAway")
    | some t =>
      if t = tag then
        match c.team with
        | none => .error (.keyError "team")
        | some td => .ok (some td)
      else findTagged tag rest

/-- Embeds the required-field check
`all([away['abbrev'], away['color'], home['abbrev'], home['color']])` (line 337). -/
def required_fields_ok (away home : TeamInfo) : Bool :=
  pyTruthyStr away.abbr && pyTruthyStr away.color &&
    pyTruthyStr home.abbr && pyTruthyStr home.color

/-- Embeds lines 325-331 given the `competitors` list: run both `next`
generators (either may raise), then pair the teams; `none` when either tag
found no competitor (the `continue` of line 330-331). -/
def teamsOfCompetitors (competitors : List Competitor) :
    Except PyError (Option (TeamData × TeamData)) := do
  let awayData ← findTagged "away" competitors
  let homeData ← findTagged "home" competitors
  match awayData, homeData with
  | some a, some h => .ok (some (a, h))
  | _, _ => .ok none

/-- Lines 322-325: a first competition with no `competitors` key is skipped. -/
def teamsOfCompetition : Option (List Competitor) → Except PyError (Option (TeamData × TeamData))
  | none => .ok none
  | some cs => teamsOfCompetitors cs

/-- Lines 321-331: extract the away and home team objects of one event, a
`KeyError` escaping, or `none` when the event is to be skipped. -/
def eventTeams (ev : Event) : Except PyError (Option (TeamData × TeamData)) :=
  match ev.competitions.getD [] with
  | [] => .ok none
  | comp0 :: _ => teamsOfCompetition comp0.competitors

/-- Embeds one iteration of the event loop of `process_league` (lines
317-344): skip on a falsy `competitions` list, a first competition with no
`competitors` key, a missing team, or a failed required-field check;
otherwise invoke `generate_image`; an uncaught `KeyError` crashes. -/
def process_event (env : StepEnv) (ev : Event) : EventOutcome :=
  match eventTeams ev with
  | .error e => .crashed e
  | .ok none => .skipped
  | .ok (some (a, h)) =>
    if required_fields_ok (get_team_info a) (get_team_info h) then
      .attempted (generate_image env (get_team_info a) (get_team_info h) ev.date).ok
    else .skipped

/-- How one loop iteration combines with the processing of the later events:
an uncaught exception aborts the whole loop, a success adds one. -/
def tallyOutcome (out : EventOutcome) (rest : Except PyError Nat) : Except PyError Nat :=
  match out with
  | .crashed e => .error e
  | .skipped => rest
  | .attempted b =>
    match rest with
    | .error e => .error e
    | .ok n => .ok (n + (if b then 1 else 0))

/-- The event loop's tally over the whole `events` list. -/
def process_events (env : StepEnv) : List Event → Except PyError Nat
  | [] => .ok 0
  | ev :: rest => tallyOutcome (process_event env ev) (process_events env rest)

/-- Embeds `process_league` (lines 295-348) from the fetch result onward:
`none` models `fetch_schedule` returning `None` on any transport or HTTP
error (lines 283-293); a body that is falsy or lacks the `events` key
returns 0 at line 311; otherwise the event loop runs. -/
def process_league (env : StepEnv) (fetched : Option ScheduleData) : Except PyError Nat :=
  match fetched with
  | none => .ok 0
  | some data =>
    match data.events with
    | none => .ok 0
    | some evs => process_events env evs

/-- A competitor that carries both keys the generator expressions subscript. -/
def competitorSafe (c : Competitor) : Bool := c.homeAway.isSome && c.team.isSome

/-- Every competitor of every competition of the event carries both keys. -/
def eventShapeSafe (ev : Event) : Bool :=
  (ev.competitions.getD []).all (fun comp => (comp.competitors.getD []).all competitorSafe)

/-- Every event of the schedule is shape-safe. -/
def scheduleShapeSafe (d : ScheduleData) : Bool := (d.events.getD []).all eventShapeSafe

/-- A step environment in which every download and every external command succeeds. -/
def allOkEnv : StepEnv := ⟨true, true, true, true, true, true, true, true, true⟩

/-- A step environment in which the first resize invocation fails. -/
def resizeFailEnv : StepEnv := ⟨true, true, false, true, true, true, true, true, true⟩

/-- A team JSON carrying only a flat `logo` URL: no abbreviation, no colors. -/
def bareTeam : TeamData := ⟨none, none, none, none, some "http://x/l.png"⟩

/-- Resolved team info with a present logo URL, for exercising `generate_image`. -/
def awayInfoSample : TeamInfo := ⟨"AAA", "#111111", "#222222", some "http://x/a.png"⟩

/-- A second resolved team info with a present logo URL. -/
def homeInfoSample : TeamInfo := ⟨"BBB", "#333333", "#444444", some "http://x/b.png"⟩

/-- A team JSON with an abbreviation and a flat logo URL but no color keys. -/
def bareTeamB : TeamData := ⟨some "BBB", none, none, none, some "http://x/m.png"⟩

/-- An event whose two competitors are tagged; the away team lacks both the
abbreviation and the color key, the home team lacks the color key. -/
def c2Event : Event :=
  ⟨some "2025-11-15T19:30Z",
    some [⟨some [⟨some "away", some bareTeam⟩, ⟨some "home", some bareTeamB⟩]⟩]⟩

/-- A schedule whose single event holds one competitor with no `homeAway` key. -/
def c3Schedule : ScheduleData :=
  ⟨some [⟨none, some [⟨some [⟨none, some bareTeam⟩]⟩]⟩]⟩

/-- A logos entry without the `default` rel tag. -/
def entryFull : LogoEntry := ⟨some ["full"], some "u1"⟩

/-- A logos entry carrying the `default` rel tag. -/
def entryDefault : LogoEntry := ⟨some ["default"], some "u2"⟩

/-- A team JSON with both a logos list (default entry second) and a flat logo. -/
def teamWithLogos : TeamData := ⟨none, none, none, some [entryFull, entryDefault], some "flat"⟩

/-- A team JSON whose abbreviation key is present but empty. -/
def emptyAbbrevTeam : TeamData := ⟨some "", none, none, none, some "http://x/e.png"⟩

/-- A step environment in which only the final composite command fails. -/
def finalFailEnv : StepEnv := ⟨true, true, true, true, true, true, true, true, false⟩

/-- Resolved team info whose logo URL is `None`. -/
def noUrlTeamInfo : TeamInfo := ⟨"AAA", "#111111", "#222222", none⟩

/-- A team JSON whose color key is present with an empty value. -/
def emptyColorTeam : TeamData := ⟨none, some "", none, none, none⟩

/-! Helper lemmas shared by the claim theorems. -/

theorem pyTruthyStr_eq_false_iff (s : String) : pyTruthyStr s = false ↔ s = "" := by
  cases s with
  | mk l => cases l <;> simp [pyTruthyStr, String.ext_iff]

theorem pyTruthyStr_hash_append (s : String) : pyTruthyStr ("#" ++ s) = true := by
  have h : ("#" ++ s).data = '#' :: s.data := String.data_append "#" s
  simp [pyTruthyStr, h]

theorem dropWhile_hash_of_no_hash (l : List Char) (h : l.all (fun c => c ≠ '#') = true) :
    l.dropWhile (fun c => c = '#') = l := by
  cases l with
  | nil => rfl
  | cons c cs =>
    simp only [List.all_cons, Bool.and_eq_true, decide_eq_true_eq] at h
    simp [List.dropWhile_cons, h.1]

theorem lstripHash_eq_self (s : String) (h : s.data.all (fun c => c ≠ '#') = true) :
    lstripHash s = s := by
  unfold lstripHash
  rw [dropWhile_hash_of_no_hash s.data h]

theorem lstripHash_hash_cons (s : String) : lstripHash ("#" ++ s) = lstripHash s := by
  unfold lstripHash
  have h : ("#" ++ s).data = '#' :: s.data := String.data_append "#" s
  rw [h, List.dropWhile_cons]
  simp

theorem lstripHash_all_hash (s : String) (h : s.data.all (fun c => c = '#') = true) :
    lstripHash s = "" := by
  unfold lstripHash
  have hd : s.data.dropWhile (fun c => c = '#') = [] :=
    List.dropWhile_eq_nil_iff.mpr (by simpa using List.all_eq_true.mp h)
  rw [hd]

theorem get_team_info_abbr_eq (t : TeamData) :
    (get_team_info t).abbr = t.abbreviation.getD "TBD" := rfl

theorem get_team_info_color_eq (t : TeamData) :
    (get_team_info t).color = "#" ++ lstripHash (t.color.getD "CCCCCC") := rfl

theorem get_team_info_alt_color_eq (t : TeamData) :
    (get_team_info t).alt_color = "#" ++ lstripHash (t.altColor.getD "000000") := rfl

theorem get_team_info_logo_url_eq (t : TeamData) :
    (get_team_info t).logo_url =
      if pyTruthyOpt (logoFromList t.logos) then logoFromList t.logos else t.logo := rfl

theorem get_team_info_color_truthy (t : TeamData) :
    pyTruthyStr (get_team_info t).color = true := by
  rw [get_team_info_color_eq]
  exact pyTruthyStr_hash_append _

theorem abbr_falsy_iff (t : TeamData) :
    pyTruthyStr (get_team_info t).abbr = false ↔ t.abbreviation = some "" := by
  rw [get_team_info_abbr_eq]
  cases ht : t.abbreviation with
  | none => simp [show pyTruthyStr "TBD" = true from rfl]
  | some s => simp [pyTruthyStr_eq_false_iff]

theorem required_fields_ok_get (a h : TeamData) :
    required_fields_ok (get_team_info a) (get_team_info h)
      = (pyTruthyStr (get_team_info a).abbr && pyTruthyStr (get_team_info h).abbr) := by
  unfold required_fields_ok
  rw [get_team_info_color_truthy, get_team_info_color_truthy]
  simp [Bool.and_assoc, Bool.and_comm, Bool.and_left_comm]

theorem required_fields_ok_false_iff (a h : TeamData) :
    required_fields_ok (get_team_info a) (get_team_info h) = false
      ↔ (a.abbreviation = some "" ∨ h.abbreviation = some "") := by
  rw [required_fields_ok_get, Bool.and_eq_false_iff, abbr_falsy_iff, abbr_falsy_iff]

theorem findTagged_ok_of_safe (tag : String) (cs : List Competitor)
    (h : cs.all competitorSafe = true) : ∃ r, findTagged tag cs = .ok r := by
  induction cs with
  | nil => exact ⟨none, rfl⟩
  | cons c rest ih =>
    simp only [List.all_cons, Bool.and_eq_true] at h
    obtain ⟨hc, hrest⟩ := h
    simp only [competitorSafe, Bool.and_eq_true, Option.isSome_iff_exists] at hc
    obtain ⟨⟨t, ht⟩, ⟨td, htd⟩⟩ := hc
    by_cases htag : t = tag
    · exact ⟨some td, by simp [findTagged, ht, htd, if_pos htag]⟩
    · obtain ⟨r, hr⟩ := ih hrest
      exact ⟨r, by simp [findTagged, ht, if_neg htag, hr]⟩

theorem teamsOfCompetitors_ok_of_safe (cs : List Competitor)
    (h : cs.all competitorSafe = true) : ∃ r, teamsOfCompetitors cs = .ok r := by
  obtain ⟨ra, hra⟩ := findTagged_ok_of_safe "away" cs h
  obtain ⟨rh, hrh⟩ := findTagged_ok_of_safe "home" cs h
  unfold teamsOfCompetitors
  rw [hra, hrh]
  cases ra with
  | none => cases rh <;> exact ⟨none, rfl⟩
  | some a =>
    cases rh with
    | none => exact ⟨none, rfl⟩
    | some b => exact ⟨some (a, b), rfl⟩

theorem eventTeams_ok_of_safe (ev : Event) (h : eventShapeSafe ev = true) :
    ∃ r, eventTeams ev = .ok r := by
  unfold eventTeams
  cases hc : ev.competitions.getD [] with
  | nil => exact ⟨none, rfl⟩
  | cons comp0 comps =>
    show ∃ r, teamsOfCompetition comp0.competitors = Except.ok r
    have h0 : (comp0.competitors.getD []).all competitorSafe = true := by
      unfold eventShapeSafe at h
      rw [hc] at h
      simp only [List.all_cons, Bool.and_eq_true] at h
      exact h.1
    obtain hcs | ⟨cs, hcs⟩ : comp0.competitors = none ∨ ∃ cs, comp0.competitors = some cs := by
      cases comp0.competitors with
      | none => exact Or.inl rfl
      | some cs => exact Or.inr ⟨cs, rfl⟩
    · rw [hcs]
      exact ⟨none, rfl⟩
    · rw [hcs]
      rw [hcs] at h0
      exact teamsOfCompetitors_ok_of_safe cs (by simpa using h0)

theorem process_event_not_crashed (env : StepEnv) (ev : Event)
    (h : eventShapeSafe ev = true) (e : PyError) :
    process_event env ev ≠ .crashed e := by
  obtain ⟨r, hr⟩ := eventTeams_ok_of_safe ev h
  unfold process_event
  rw [hr]
  cases r with
  | none => simp
  | some p =>
    obtain ⟨a, b⟩ := p
    show (if required_fields_ok (get_team_info a) (get_team_info b) = true then
        EventOutcome.attempted (generate_image env (get_team_info a) (get_team_info b) ev.date).ok
      else EventOutcome.skipped) ≠ EventOutcome.crashed e
    split <;> simp

theorem tallyOutcome_ok (out : EventOutcome) (hnc : ∀ e, out ≠ .crashed e) (n : Nat) :
    ∃ m, tallyOutcome out (.ok n) = .ok m := by
  cases out with
  | crashed e => exact absurd rfl (hnc e)
  | skipped => exact ⟨n, rfl⟩
  | attempted b => exact ⟨n + (if b then 1 else 0), rfl⟩

theorem process_events_ok_of_safe (env : StepEnv) (evs : List Event)
    (h : evs.all eventShapeSafe = true) : ∃ n, process_events env evs = .ok n := by
  induction evs with
  | nil => exact ⟨0, rfl⟩
  | cons ev rest ih =>
    simp only [List.all_cons, Bool.and_eq_true] at h
    obtain ⟨n, hn⟩ := ih h.2
    obtain ⟨m, hm⟩ := tallyOutcome_ok (process_event env ev)
      (process_event_not_crashed env ev h.1) n
    refine ⟨m, ?_⟩
    show tallyOutcome (process_event env ev) (process_events env rest) = .ok m
    rw [hn, hm]

theorem render_eq (a lm : Nat) (ha : a ≤ 23) :
    String.mk (stripLeadZero (pad2 (if a % 12 = 0 then 12 else a % 12) ++ ':' :: pad2 lm
        ++ ' ' :: (if a < 12 then "AM" else "PM").data ++ " CT".data))
      = String.mk (natChars (if a = 0 then 12 else if a ≤ 12 then a else a - 12) ++ ':' :: pad2 lm
        ++ ' ' :: (if a < 12 then "AM" else "PM").data ++ " CT".data) := by
  interval_cases a <;> rfl

theorem spec_time_label_eq_format (h m : Nat) :
    spec_time_label h m = format_game_time h m := by
  simp only [spec_time_label, format_game_time]
  have htot : ((((h : Int) * 60 + (m : Int) - 360) % 1440).toNat
      = (h * 60 + m + 1080) % 1440) := by
    have h1 : (h : Int) * 60 + (m : Int) - 360 = ((h * 60 + m + 1080 : Nat) : Int) - 1440 := by
      push_cast
      ring
    rw [h1, Int.emod_sub_cancel]
    omega
  rw [htot]
  exact (render_eq ((h * 60 + m + 1080) % 1440 / 60) ((h * 60 + m + 1080) % 1440 % 60)
    (by omega)).symm

/-! Claim theorems. -/

/-- C1 counterexample: the claim that every exit path of `generate_image`
removes all eight per-game temporary files is false. When both downloads
succeed and the first resize invocation then fails, the call returns with
the two downloaded files still on disk. -/
theorem c1_cleanup_counterexample :
    (generate_image resizeFailEnv awayInfoSample homeInfoSample none).tempLeft
        = [TempFile.dlAway, TempFile.dlHome] ∧
    (generate_image resizeFailEnv awayInfoSample homeInfoSample none).tempLeft ≠ [] :=
  ⟨rfl, by decide⟩

/-- C1 amended: the unconditional cleanup is scoped to the final composite
`try`/`finally` only. Whenever both logo URLs are truthy and the download,
resize, background-removal and glow steps all succeed, no temporary file
remains when the call returns, whether or not the final composite command
succeeds; earlier failure exits instead keep the files created so far. -/
theorem c1_cleanup_scoped (env : StepEnv) (away home : TeamInfo) (raw : Option String)
    (hu1 : pyTruthyOpt away.logo_url = true) (hu2 : pyTruthyOpt home.logo_url = true)
    (h1 : env.dl_away_ok = true) (h2 : env.dl_home_ok = true)
    (h3 : env.resize_away_ok = true) (h4 : env.resize_home_ok = true)
    (h5 : env.clean_away_ok = true) (h6 : env.clean_home_ok = true)
    (h7 : env.glow_away_ok = true) (h8 : env.glow_home_ok = true) :
    (generate_image env away home raw).tempLeft = [] ∧
    (generate_image env away home raw).ok = env.final_ok := by
  simp [generate_image, hu1, hu2, h1, h2, h3, h4, h5, h6, h7, h8]

/-- C1 witness: at a concrete environment where only the final composite
fails, cleanup still leaves no temporary file. -/
theorem c1_cleanup_scoped_witness :
    (generate_image finalFailEnv awayInfoSample homeInfoSample none).tempLeft = [] ∧
    (generate_image finalFailEnv awayInfoSample homeInfoSample none).ok = false :=
  c1_cleanup_scoped finalFailEnv awayInfoSample homeInfoSample none
    rfl rfl rfl rfl rfl rfl rfl rfl rfl rfl

/-- C2 counterexample: the claim that an event is skipped when a team JSON
lacks the abbreviation or color field is false. With both competitors'
team objects lacking abbreviation and color (carrying only a flat logo
URL), the defaults `TBD` and `#CCCCCC` are truthy, the required-field
check passes, `generate_image` is invoked, and the event produces output. -/
theorem c2_skip_counterexample :
    process_event allOkEnv c2Event = EventOutcome.attempted true ∧
    (generate_image allOkEnv (get_team_info bareTeam) (get_team_info bareTeamB)
        (some "2025-11-15T19:30Z")).outputWritten = true :=
  ⟨rfl, rfl⟩

/-- C2 amended: for an event with an away-tagged and a home-tagged
competitor, the orchestrator skips at the required-field check exactly when
a team's abbreviation key is present with a falsy (empty) value; absent
abbreviation or color keys take truthy defaults and do not cause a skip,
and a resolved color is never falsy. -/
theorem c2_skip_amended (env : StepEnv) (a h : TeamData) (d : Option String) :
    process_event env
        ⟨d, some [⟨some [⟨some "away", some a⟩, ⟨some "home", some h⟩]⟩]⟩ = .skipped
      ↔ (a.abbreviation = some "" ∨ h.abbreviation = some "") := by
  have hred : process_event env
      ⟨d, some [⟨some [⟨some "away", some a⟩, ⟨some "home", some h⟩]⟩]⟩
      = (if required_fields_ok (get_team_info a) (get_team_info h) then
          EventOutcome.attempted (generate_image env (get_team_info a) (get_team_info h) d).ok
        else EventOutcome.skipped) := rfl
  rw [hred, ← required_fields_ok_false_iff a h]
  constructor
  · intro hskip
    by_cases hok : required_fields_ok (get_team_info a) (get_team_info h) = true
    · rw [if_pos hok] at hskip
      exact absurd hskip (by simp)
    · simpa using hok
  · intro hfalse
    rw [if_neg (by simp [hfalse])]

/-- C2 witness: an event whose away team carries an explicitly empty
abbreviation is skipped. -/
theorem c2_skip_amended_witness :
    process_event allOkEnv
        ⟨none, some [⟨some [⟨some "away", some emptyAbbrevTeam⟩,
          ⟨some "home", some bareTeam⟩]⟩]⟩ = EventOutcome.skipped :=
  (c2_skip_amended allOkEnv emptyAbbrevTeam bareTeam none).mpr (Or.inl rfl)

/-- C3 counterexample: the claim that malformed schedule data only aborts
the affected game is false. A schedule whose single event holds a
competitor entry with no `homeAway` key raises an uncaught `KeyError`
inside the generator expression, which escapes `process_league` and
terminates the run. -/
theorem c3_isolation_counterexample :
    process_league allOkEnv (some c3Schedule) = .error (.keyError "homeAway") := rfl

/-- C3 amended: the isolate-and-continue policy holds for the malformed
shapes the loop guards against (falsy competitions, first competition
without a competitors key, missing home or away tag, missing required
fields) and for every per-game generation failure, provided every
competitor entry carries both the `homeAway` and `team` keys; then
`process_league` always returns a count, whatever the step outcomes. -/
theorem c3_isolation_amended (env : StepEnv) (fetched : Option ScheduleData)
    (hsafe : ∀ d, fetched = some d → scheduleShapeSafe d = true) :
    ∃ n, process_league env fetched = .ok n := by
  cases fetched with
  | none => exact ⟨0, rfl⟩
  | some data =>
    have hd := hsafe data rfl
    cases hev : data.events with
    | none =>
      refine ⟨0, ?_⟩
      show (match data.events with
        | none => Except.ok 0
        | some evs => process_events env evs) = Except.ok 0
      rw [hev]
    | some evs =>
      have hevs : evs.all eventShapeSafe = true := by
        unfold scheduleShapeSafe at hd
        rw [hev] at hd
        simpa using hd
      obtain ⟨n, hn⟩ := process_events_ok_of_safe env evs hevs
      refine ⟨n, ?_⟩
      show (match data.events with
        | none => Except.ok 0
        | some evs => process_events env evs) = Except.ok n
      rw [hev]
      exact hn

/-- C3 witness: a shape-safe schedule of one event runs to completion. -/
theorem c3_isolation_amended_witness :
    process_league allOkEnv (some ⟨some [c2Event]⟩) = Except.ok 1 := by
  obtain ⟨n, hn⟩ := c3_isolation_amended allOkEnv (some ⟨some [c2Event]⟩)
    (fun d hd => by cases hd; decide)
  have h1 : process_league allOkEnv (some ⟨some [c2Event]⟩) = Except.ok 1 := rfl
  exact h1

/-- C4: logo URL resolution order. Inside a truthy `logos` list the entry
found by the default-tag search wins and its `href` is returned when
truthy; with no default entry the first entry's `href` is used; with no
list the flat `logo` field is returned; a falsy chosen `href` also falls
back to the flat field; and with neither source the URL is `None`. -/
theorem c4_logo_resolution (t : TeamData) :
    (∀ l e, t.logos = some l → l.find? isDefaultEntry = some e →
      pyTruthyOpt e.href = true → (get_team_info t).logo_url = e.href) ∧
    (∀ e es, t.logos = some (e :: es) → (e :: es).find? isDefaultEntry = none →
      pyTruthyOpt e.href = true → (get_team_info t).logo_url = e.href) ∧
    (t.logos = none → (get_team_info t).logo_url = t.logo) ∧
    (∀ e es, t.logos = some (e :: es) →
      pyTruthyOpt ((((e :: es).find? isDefaultEntry).getD e).href) = false →
      (get_team_info t).logo_url = t.logo) ∧
    (t.logos = none → t.logo = none → (get_team_info t).logo_url = none) := by
  refine ⟨?_, ?_, ?_, ?_, ?_⟩
  · intro l e hl hfind htruthy
    rw [get_team_info_logo_url_eq, hl]
    cases l with
    | nil => simp at hfind
    | cons e0 es =>
      simp only [logoFromList]
      rw [hfind, Option.getD_some, htruthy]
      simp
  · intro e es hl hfind htruthy
    rw [get_team_info_logo_url_eq, hl]
    simp only [logoFromList]
    rw [hfind, Option.getD_none, htruthy]
    simp
  · intro hl
    rw [get_team_info_logo_url_eq, hl]
    simp [logoFromList, pyTruthyOpt]
  · intro e es hl hfalsy
    rw [get_team_info_logo_url_eq, hl]
    simp only [logoFromList]
    rw [hfalsy]
    simp
  · intro hl hflat
    rw [get_team_info_logo_url_eq, hl, hflat]
    simp [logoFromList, pyTruthyOpt]

/-- C4 witness: the default-tagged entry is chosen over an earlier
non-default entry, and its `href` is returned. -/
theorem c4_logo_resolution_witness :
    (get_team_info teamWithLogos).logo_url = some "u2" :=
  (c4_logo_resolution teamWithLogos).1 [entryFull, entryDefault] entryDefault
    rfl rfl rfl

/-- C5 counterexample: the claim that every parseable timestamp is rendered
by the subtract-six-hours rule is false at timestamps within six hours of
`datetime.min`: `0001-01-01T02:00Z` parses, the claimed rule renders
`8:00 PM CT`, but the six-hour subtraction raises `OverflowError`, caught
by the surrounding `except`, so the code produces `TIME TBD`. -/
theorem c5_time_counterexample :
    strptimeYmdHMZ "0001-01-01T02:00Z" = some ⟨1, 1, 1, 2, 0⟩ ∧
    compute_time_label (some "0001-01-01T02:00Z") = "TIME TBD" ∧
    spec_time_label 2 0 = "8:00 PM CT" ∧
    ("TIME TBD" : String) ≠ "8:00 PM CT" :=
  ⟨rfl, rfl, rfl, by decide⟩

/-- C5 amended: for every parseable timestamp other than those within six
hours after `0001-01-01T00:00Z` (where the subtraction overflows and the
label degrades to `TIME TBD`), the label equals the spec's rule: subtract
exactly six hours, render a 12-hour clock with AM/PM and a CT suffix, strip
the hour's leading zero; in particular `2025-11-15T19:30Z` gives
`1:30 PM CT`. -/
theorem c5_time_amended :
    compute_time_label (some "2025-11-15T19:30Z") = "1:30 PM CT" ∧
    (∀ s dt, strptimeYmdHMZ s = some dt →
      ¬(dt.year = 1 ∧ dt.month = 1 ∧ dt.day = 1 ∧ dt.hour * 60 + dt.minute < 360) →
      compute_time_label (some s) = spec_time_label dt.hour dt.minute) := by
  constructor
  · rfl
  · intro s dt hp hovf
    show (match strptimeYmdHMZ s with
      | none => "TIME TBD"
      | some dt =>
        if dt.year = 1 ∧ dt.month = 1 ∧ dt.day = 1 ∧ dt.hour * 60 + dt.minute < 360 then
          "TIME TBD"
        else format_game_time dt.hour dt.minute) = spec_time_label dt.hour dt.minute
    rw [hp]
    show (if dt.year = 1 ∧ dt.month = 1 ∧ dt.day = 1 ∧ dt.hour * 60 + dt.minute < 360 then
        "TIME TBD"
      else format_game_time dt.hour dt.minute) = spec_time_label dt.hour dt.minute
    rw [if_neg hovf]
    exact (spec_time_label_eq_format dt.hour dt.minute).symm

/-- C5 witness: the amended rule applied at the spec's own example. -/
theorem c5_time_amended_witness :
    compute_time_label (some "2025-11-15T19:30Z") = spec_time_label 19 30 :=
  c5_time_amended.2 "2025-11-15T19:30Z" ⟨2025, 11, 15, 19, 30⟩ rfl (by decide)

/-- C6: an unparseable timestamp degrades to the literal label `TIME TBD`
and does not abort the game: when both URLs are truthy and every external
step succeeds, the graphic is produced and the label used is `TIME TBD`. -/
theorem c6_time_tbd (env : StepEnv) (away home : TeamInfo) (s : String)
    (hparse : strptimeYmdHMZ s = none)
    (hu1 : pyTruthyOpt away.logo_url = true) (hu2 : pyTruthyOpt home.logo_url = true)
    (h1 : env.dl_away_ok = true) (h2 : env.dl_home_ok = true)
    (h3 : env.resize_away_ok = true) (h4 : env.resize_home_ok = true)
    (h5 : env.clean_away_ok = true) (h6 : env.clean_home_ok = true)
    (h7 : env.glow_away_ok = true) (h8 : env.glow_home_ok = true)
    (h9 : env.final_ok = true) :
    (generate_image env away home (some s)).ok = true ∧
    (generate_image env away home (some s)).timeLabel = some "TIME TBD" ∧
    (generate_image env away home (some s)).outputWritten = true := by
  have hlabel : compute_time_label (some s) = "TIME TBD" := by
    show (match strptimeYmdHMZ s with
      | none => "TIME TBD"
      | some dt =>
        if dt.year = 1 ∧ dt.month = 1 ∧ dt.day = 1 ∧ dt.hour * 60 + dt.minute < 360 then
          "TIME TBD"
        else format_game_time dt.hour dt.minute) = "TIME TBD"
    rw [hparse]
  simp [generate_image, hu1, hu2, h1, h2, h3, h4, h5, h6, h7, h8, h9, hlabel]

/-- C6 witness: at the unparseable string `TBD` with every step succeeding,
the graphic is produced with the `TIME TBD` label. -/
theorem c6_time_tbd_witness :
    (generate_image allOkEnv awayInfoSample homeInfoSample (some "TBD")).ok = true ∧
    (generate_image allOkEnv awayInfoSample homeInfoSample (some "TBD")).timeLabel
      = some "TIME TBD" ∧
    (generate_image allOkEnv awayInfoSample homeInfoSample (some "TBD")).outputWritten = true :=
  c6_time_tbd allOkEnv awayInfoSample homeInfoSample "TBD"
    rfl rfl rfl rfl rfl rfl rfl rfl rfl rfl rfl rfl

/-- C7: a color or altColor value, with or without a leading hash, is
normalized to exactly one leading `#` followed by the original hex digits;
an absent key defaults to `#CCCCCC` (primary) or `#000000` (secondary). -/
theorem c7_color_normalization (t : TeamData) (hex : String)
    (hhex : hex.data.all (fun c => c ≠ '#') = true) :
    (t.color = some hex → (get_team_info t).color = "#" ++ hex) ∧
    (t.color = some ("#" ++ hex) → (get_team_info t).color = "#" ++ hex) ∧
    (t.altColor = some hex → (get_team_info t).alt_color = "#" ++ hex) ∧
    (t.altColor = some ("#" ++ hex) → (get_team_info t).alt_color = "#" ++ hex) ∧
    (t.color = none → (get_team_info t).color = "#CCCCCC") ∧
    (t.altColor = none → (get_team_info t).alt_color = "#000000") := by
  refine ⟨?_, ?_, ?_, ?_, ?_, ?_⟩ <;> intro h
  · rw [get_team_info_color_eq, h, Option.getD_some, lstripHash_eq_self hex hhex]
  · rw [get_team_info_color_eq, h, Option.getD_some, lstripHash_hash_cons,
      lstripHash_eq_self hex hhex]
  · rw [get_team_info_alt_color_eq, h, Option.getD_some, lstripHash_eq_self hex hhex]
  · rw [get_team_info_alt_color_eq, h, Option.getD_some, lstripHash_hash_cons,
      lstripHash_eq_self hex hhex]
  · rw [get_team_info_color_eq, h, Option.getD_none]
    rfl
  · rw [get_team_info_alt_color_eq, h, Option.getD_none]
    rfl

/-- C7 witness: a bare hex color gains a hash, a hash-prefixed altColor
keeps exactly one. -/
theorem c7_color_normalization_witness :
    (get_team_info ⟨none, some "1a2b3c", some "#0d0d0d", none, none⟩).color = "#1a2b3c" ∧
    (get_team_info ⟨none, some "1a2b3c", some "#0d0d0d", none, none⟩).alt_color = "#0d0d0d" :=
  ⟨(c7_color_normalization ⟨none, some "1a2b3c", some "#0d0d0d", none, none⟩ "1a2b3c"
      (by decide)).1 rfl,
   (c7_color_normalization ⟨none, some "1a2b3c", some "#0d0d0d", none, none⟩ "0d0d0d"
      (by decide)).2.2.2.1 rfl⟩

/-- C8: when either team's logo URL is `None`, `generate_image` fails
before attempting any download or any image-tool invocation, writes no
output PNG, and leaves no temporary file. -/
theorem c8_missing_logo (env : StepEnv) (away home : TeamInfo) (raw : Option String)
    (h : away.logo_url = none ∨ home.logo_url = none) :
    (generate_image env away home raw).ok = false ∧
    (generate_image env away home raw).downloads = 0 ∧
    (generate_image env away home raw).toolCalls = 0 ∧
    (generate_image env away home raw).outputWritten = false ∧
    (generate_image env away home raw).tempLeft = [] := by
  have hfalse : (pyTruthyOpt away.logo_url && pyTruthyOpt home.logo_url) = false := by
    rcases h with h | h <;> simp [h, pyTruthyOpt]
  simp [generate_image, hfalse]

/-- C8 witness: a game whose away team has no logo URL yields no download,
no tool call, no output. -/
theorem c8_missing_logo_witness :
    (generate_image allOkEnv noUrlTeamInfo homeInfoSample none).ok = false ∧
    (generate_image allOkEnv noUrlTeamInfo homeInfoSample none).downloads = 0 ∧
    (generate_image allOkEnv noUrlTeamInfo homeInfoSample none).toolCalls = 0 ∧
    (generate_image allOkEnv noUrlTeamInfo homeInfoSample none).outputWritten = false ∧
    (generate_image allOkEnv noUrlTeamInfo homeInfoSample none).tempLeft = [] :=
  c8_missing_logo allOkEnv noUrlTeamInfo homeInfoSample none (Or.inl rfl)

/-- C9: a league is skipped with a zero count both when the fetch fails
(returns `None`) and when the fetch succeeds but the decoded body is falsy
or lacks the `events` key. -/
theorem c9_league_skip (env : StepEnv) (fetched : Option ScheduleData) :
    (fetched = none → process_league env fetched = .ok 0) ∧
    (∀ d, fetched = some d → d.events = none → process_league env fetched = .ok 0) := by
  constructor
  · intro hn
    rw [hn]
    rfl
  · intro d hd he
    rw [hd]
    show (match d.events with
      | none => Except.ok 0
      | some evs => process_events env evs) = Except.ok 0
    rw [he]

/-- C9 witness: both skip paths at concrete inputs. -/
theorem c9_league_skip_witness :
    process_league allOkEnv none = Except.ok 0 ∧
    process_league allOkEnv (some ⟨none⟩) = Except.ok 0 :=
  ⟨(c9_league_skip allOkEnv none).1 rfl,
   (c9_league_skip allOkEnv (some ⟨none⟩)).2 ⟨none⟩ rfl rfl⟩

/-- C10: the gray and black defaults apply only to absent keys; a color key
present with an empty (or all-hash) value collapses to the bare string `#`,
which is non-empty and truthy, so the orchestrator's required-field check
reduces to the two abbreviation checks and never fails on a color. -/
theorem c10_empty_color (t : TeamData) (s : String) :
    (t.color = some s → s.data.all (fun c => c = '#') = true →
      (get_team_info t).color = "#") ∧
    ((get_team_info t).color ≠ "") ∧
    (pyTruthyStr (get_team_info t).color = true) ∧
    (t.color = none → (get_team_info t).color = "#CCCCCC") ∧
    (∀ u : TeamData, required_fields_ok (get_team_info t) (get_team_info u)
      = (pyTruthyStr (get_team_info t).abbr && pyTruthyStr (get_team_info u).abbr)) := by
  refine ⟨?_, ?_, ?_, ?_, ?_⟩
  · intro h hall
    rw [get_team_info_color_eq, h, Option.getD_some, lstripHash_all_hash s hall]
    rfl
  · intro heq
    have h1 := get_team_info_color_truthy t
    rw [heq] at h1
    exact absurd h1 (by decide)
  · exact get_team_info_color_truthy t
  · intro h
    rw [get_team_info_color_eq, h, Option.getD_none]
    rfl
  · intro u
    exact required_fields_ok_get t u

/-- C10 witness: an explicitly empty color yields `#`, which is truthy. -/
theorem c10_empty_color_witness :
    (get_team_info emptyColorTeam).color = "#" ∧
    pyTruthyStr (get_team_info emptyColorTeam).color = true :=
  ⟨(c10_empty_color emptyColorTeam "").1 rfl (by decide),
   (c10_empty_color emptyColorTeam "").2.2.1⟩

end LogoGen
